import Mathlib

/-!
Verification development for the multi-agent web-exploration orchestrator.

The definitions below are a shallow embedding of the Python sources:
  app/models/exploration_session.py
  app/models/approval_gate.py
  app/models/scraper_generation.py
  app/agents/coordinator_agent.py
  app/services/exploration_orchestrator.py
  app/services/approval_pipeline.py
  app/services/scraper_tester.py

Conventions of the embedding:
* Wall-clock timestamps (datetime.now) are modelled as explicit `now : Nat`
  arguments threaded into every mutator that stamps a time.
* External effects (the browser driver, the LLM client, the tested
  subprocess) are modelled as function parameters supplying their outcomes,
  exactly at the call boundary where the Python code invokes them.
* Python exceptions are modelled with `Except`/`Option`; a `with self.lock`
  on a non-reentrant `threading.Lock` that the current thread already holds
  blocks forever and is modelled as `none`.
-/

/-- SessionStatus enum from exploration_session.py. -/
inductive SessionStatus
  | created
  | running
  | paused
  | completed
  | failed
  | cancelled
deriving DecidableEq

/-- AgentRole enum from exploration_session.py. -/
inductive AgentRole
  | coordinator
  | browser
  | analyst
deriving DecidableEq

/-- ActionType enum from exploration_session.py. -/
inductive ActionType
  | plan_creation
  | navigation
  | dom_query
  | screenshot
  | analysis
  | extraction
  | error
  | user_input
deriving DecidableEq

/-- ActionLog dataclass (the fields the orchestration logic reads; the
free-form `details`/`metadata` payload dictionaries are not modelled). -/
structure ActionLog where
  agent_role : Option AgentRole := none
  action_type : Option ActionType := none
  description : String := ""
  reasoning : Option String := none
  result : Option String := none
  error : Option String := none
deriving DecidableEq

/-- One entry of `ExplorationSession.approval_gates`.  The Python session
stores approval gates as plain dictionaries; `check_approval_sequencing`
reads the string-valued keys `approval_type` and `status`. -/
structure GateRec where
  approval_type : String
  status : String
deriving DecidableEq

/-- ExplorationSession dataclass (progress, lifecycle and log state used by
the orchestrator and the approval pipeline). -/
structure ExplorationSession where
  status : SessionStatus := SessionStatus.created
  action_logs : List ActionLog := []
  updated_at : Nat := 0
  started_at : Option Nat := none
  completed_at : Option Nat := none
  current_step : Nat := 0
  total_steps : Nat := 0
  progress_percentage : Rat := 0
  max_iterations : Nat := 10
  approval_gates : List GateRec := []
deriving DecidableEq

/-- Terminal statuses listed in `update_status`: COMPLETED, FAILED, CANCELLED. -/
def SessionStatus.isTerminal : SessionStatus → Bool
  | SessionStatus.completed => true
  | SessionStatus.failed => true
  | SessionStatus.cancelled => true
  | _ => false

/-- `ExplorationSession.add_action_log`: append the entry and bump updated_at. -/
def ExplorationSession.add_action_log (s : ExplorationSession) (log : ActionLog)
    (now : Nat) : ExplorationSession :=
  { s with action_logs := s.action_logs ++ [log], updated_at := now }

/-- `ExplorationSession.update_status`: set the status and updated_at; stamp
started_at on entering RUNNING only when it is still unset; stamp
completed_at on every transition into a terminal status (the source has no
corresponding once-only guard for completed_at). -/
def ExplorationSession.update_status (s : ExplorationSession)
    (st : SessionStatus) (now : Nat) : ExplorationSession :=
  let s1 := { s with status := st, updated_at := now }
  if st = SessionStatus.running ∧ s1.started_at = none then
    { s1 with started_at := some now }
  else if st.isTerminal then
    { s1 with completed_at := some now }
  else
    s1

/-- `ExplorationSession.update_progress`: set step counters and the derived
percentage (0 when total_steps = 0). -/
def ExplorationSession.update_progress (s : ExplorationSession)
    (cur total : Nat) (now : Nat) : ExplorationSession :=
  { s with
    current_step := cur,
    total_steps := total,
    progress_percentage := if 0 < total then (cur : Rat) / (total : Rat) * 100 else 0,
    updated_at := now }

/-- ApprovalType enum from approval_gate.py. -/
inductive ApprovalType
  | exploration_summary
  | scraper_generation
  | final_delivery
deriving DecidableEq

/-- Lookup in the dictionary `{gate["approval_type"]: gate for gate in gates}`:
a Python dict comprehension keeps the last entry written for a key, so the
lookup returns the last gate of the requested type. -/
def approval_map_get (gates : List GateRec) (t : String) : Option GateRec :=
  (gates.filter (fun g => g.approval_type = t)).getLast?

/-- `ApprovalPipeline.check_approval_sequencing`: pure check over the
session gate list; returns (eligible, reason). -/
def check_approval_sequencing (session : ExplorationSession)
    (required_approval : ApprovalType) : Bool × String :=
  match required_approval with
  | ApprovalType.scraper_generation =>
    match approval_map_get session.approval_gates ("exploration_summary") with
    | none => (false, "Exploration summary must be created first")
    | some g =>
      if g.status ≠ "approved" then
        (false, "Exploration summary must be approved before scraper generation")
      else
        (true, "Approval sequencing valid")
  | ApprovalType.final_delivery =>
    let explorationApproval := approval_map_get session.approval_gates ("exploration_summary")
    let scraperApproval := approval_map_get session.approval_gates ("scraper_generation")
    match explorationApproval with
    | none => (false, "Exploration summary must be approved first")
    | some g =>
      if g.status ≠ "approved" then
        (false, "Exploration summary must be approved first")
      else
        match scraperApproval with
        | none => (false, "Scraper generation must be approved before final delivery")
        | some g2 =>
          if g2.status ≠ "approved" then
            (false, "Scraper generation must be approved before final delivery")
          else
            (true, "Approval sequencing valid")
  | ApprovalType.exploration_summary => (true, "Approval sequencing valid")

/-- One step of an exploration plan (the step dictionaries produced by
`CoordinatorAgent._break_down_objectives` and consumed by
`select_next_action`). -/
structure PlanStep where
  step_id : Nat
  type : String := ""
  description : String := ""
  priority : String := "medium"
  dependencies : List Nat := []
deriving DecidableEq

/-- `CoordinatorAgent._determine_agent_for_step`: fixed kind-to-agent map,
defaulting to the browser agent for unknown step types. -/
def determine_agent_for_step (step : PlanStep) : String :=
  let t := step.type.toLower
  if t = "navigation" ∨ t = "interaction" then "browser"
  else if t = "extraction" ∨ t = "analysis" then "analyst"
  else "browser"

/-- Eligibility test from `select_next_action`: every dependency of the step
is already in the completed list. -/
def step_eligible (completed_steps : List Nat) (s : PlanStep) : Bool :=
  s.dependencies.all (fun d => completed_steps.contains d)

/-- The three exits of `CoordinatorAgent.select_next_action`: return None
with coordinator status "completed", return None with status "waiting", or
return the action dictionary for a step together with the target agent
(coordinator status "ready"). -/
inductive NextAction
  | allComplete
  | waiting
  | execute (step : PlanStep) (agent : String)
deriving DecidableEq

/-- Coordinator status written by `select_next_action` on each exit. -/
def NextAction.coordStatus : NextAction → String
  | NextAction.allComplete => "completed"
  | NextAction.waiting => "waiting"
  | NextAction.execute _ _ => "ready"

/-- `CoordinatorAgent.select_next_action`: among the plan steps whose id is
not yet in the completed list, pick the first (in plan-list order) whose
dependencies are all completed; report all-complete when nothing is
pending, and waiting when pending steps remain but none is eligible. -/
def select_next_action (steps : List PlanStep) (completed_steps : List Nat) :
    NextAction :=
  let pending := steps.filter (fun s => !(completed_steps.contains s.step_id))
  if pending.isEmpty then NextAction.allComplete
  else
    match pending.find? (step_eligible completed_steps) with
    | some st => NextAction.execute st (determine_agent_for_step st)
    | none => NextAction.waiting

/-- Outcome of one dispatched step execution (`_execute_step` and the agent
methods it calls are all external browser/analyst effects): either a normal
return, carrying the action-log entries those methods append to the session,
or a Python exception escaping the capability call. -/
inductive StepOutcome
  | ok (stepLogs : List ActionLog)
  | exn (msg : String)

/-- Mutable orchestrator state from `ExplorationOrchestrator.__init__`,
plus the coordinator agent status the loop observes. -/
structure Orchestrator where
  session : ExplorationSession := {}
  is_running : Bool := false
  current_loop : Nat := 0
  completed_steps : List Nat := []
  coordinator_status : String := "idle"
deriving DecidableEq

/-- Loop guard of `_run_exploration_loop`. -/
def loop_guard (o : Orchestrator) (numSteps : Nat) : Bool :=
  o.current_loop < o.session.max_iterations && o.is_running &&
    o.current_loop < numSteps

/-- The session-start ActionLog appended by `start_exploration`. -/
def start_log : ActionLog :=
  { action_type := some ActionType.plan_creation,
    description := "Exploration session started" }

/-- The plan-created ActionLog appended by `start_exploration` (built by
`coordinator.log_action`). -/
def plan_log : ActionLog :=
  { agent_role := some AgentRole.coordinator,
    action_type := some ActionType.plan_creation,
    description := "Exploration plan created" }

/-- The per-iteration ActionLog appended after a completed step. -/
def iteration_log (n : Nat) : ActionLog :=
  { action_type := some ActionType.analysis,
    description := "Iteration " ++ toString n ++ " completed" }

/-- The synthesis ActionLog appended after the loop by the analyst agent. -/
def synthesis_log : ActionLog :=
  { agent_role := some AgentRole.analyst,
    action_type := some ActionType.analysis,
    description := "Final findings synthesis completed" }

/-- The completion ActionLog appended by `start_exploration` on success. -/
def completion_log : ActionLog :=
  { action_type := some ActionType.analysis,
    description := "Exploration session completed" }

/-- The session-level ActionLog appended by the catch-all except branch of
`start_exploration`. -/
def session_error_log (msg : String) : ActionLog :=
  { action_type := some ActionType.error,
    description := "Exploration session failed",
    error := some msg }

/-- The while loop of `_run_exploration_loop`.  `fuel` bounds the recursion;
every caller passes the session max_iterations, which dominates the guard
`current_loop < max_iterations`, so the fuel never runs out while the guard
still holds.  A raised exception aborts the loop, keeping the session
mutations made so far (`Except.error` carries the state at the raise). -/
def run_loop (execStep : PlanStep → String → StepOutcome)
    (steps : List PlanStep) (now : Nat) :
    Nat → Orchestrator → Except (Orchestrator × String) Orchestrator
  | 0, o => Except.ok o
  | fuel + 1, o =>
    if loop_guard o steps.length then
      let o1 := { o with current_loop := o.current_loop + 1 }
      let next := select_next_action steps o1.completed_steps
      let o1 := { o1 with coordinator_status := next.coordStatus }
      match next with
      | NextAction.allComplete => Except.ok o1
      | NextAction.waiting => Except.ok o1
      | NextAction.execute st ag =>
        match execStep st ag with
        | StepOutcome.exn msg => Except.error (o1, msg)
        | StepOutcome.ok stepLogs =>
          let o2 := { o1 with
            session := stepLogs.foldl (fun s l => s.add_action_log l now) o1.session,
            completed_steps := o1.completed_steps ++ [st.step_id] }
          let o2 := { o2 with
            session := (o2.session.update_progress o2.completed_steps.length
              steps.length now).add_action_log (iteration_log o2.current_loop) now }
          run_loop execStep steps now fuel o2
    else Except.ok o

/-- `_run_exploration_loop`: reset current_loop, run the while loop, then
(on normal exit only) invoke the analyst synthesis and append its log. -/
def run_exploration_loop (execStep : PlanStep → String → StepOutcome)
    (steps : List PlanStep) (o : Orchestrator) (now : Nat) :
    Except (Orchestrator × String) Orchestrator :=
  match run_loop execStep steps now o.session.max_iterations
      { o with current_loop := 0 } with
  | Except.error e => Except.error e
  | Except.ok o1 =>
    Except.ok { o1 with session := o1.session.add_action_log synthesis_log now }

/-- Result dictionary returned by `start_exploration`. -/
inductive StartResult
  | errorAlready (msg : String)
  | success
  | failure (msg : String)
deriving DecidableEq

/-- `ExplorationOrchestrator.start_exploration` body (run under the
orchestrator lock): fail fast when already running; otherwise mark running,
log the start, obtain the plan from the coordinator (`plan_steps` stands
for the Planner result, an external capability), run the loop, then mark
the session completed — or, when an exception escaped the loop, mark it
failed and log a single session-level error.  The finally block clears
is_running on every exit path. -/
def start_exploration (execStep : PlanStep → String → StepOutcome)
    (plan_steps : List PlanStep) (o : Orchestrator) (now : Nat) :
    Orchestrator × StartResult :=
  if o.is_running then (o, StartResult.errorAlready ("Exploration already running"))
  else
    let o1 := { o with
      is_running := true,
      session := (o.session.update_status SessionStatus.running now).add_action_log
        start_log now }
    let o1 := { o1 with session := o1.session.add_action_log plan_log now }
    let o1 := { o1 with
      session := o1.session.update_progress 0 plan_steps.length now }
    match run_exploration_loop execStep plan_steps o1 now with
    | Except.ok o2 =>
      let s := (o2.session.update_status SessionStatus.completed now).update_progress
        o2.session.total_steps o2.session.total_steps now
      let s := s.add_action_log completion_log now
      ({ o2 with session := s, is_running := false }, StartResult.success)
    | Except.error (o2, msg) =>
      let s := (o2.session.update_status SessionStatus.failed now).add_action_log
        (session_error_log msg) now
      ({ o2 with session := s, is_running := false }, StartResult.failure msg)

/-- The pause ActionLog appended by `pause_exploration`. -/
def pause_log : ActionLog :=
  { action_type := some ActionType.plan_creation,
    description := "Exploration session paused" }

/-- The resume ActionLog appended by `resume_exploration`. -/
def resume_log : ActionLog :=
  { action_type := some ActionType.plan_creation,
    description := "Exploration session resumed" }

/-- The stop ActionLog appended by `stop_exploration`. -/
def stop_log : ActionLog :=
  { action_type := some ActionType.error,
    description := "Exploration session stopped by user" }

/-- Result of a pause/stop control call. -/
inductive OpResult
  | ok (statusLabel : String)
  | error (msg : String)
deriving DecidableEq

/-- `pause_exploration`: unconditionally clear is_running, set PAUSED and
append the pause log; there is no status precondition. -/
def pause_exploration (o : Orchestrator) (now : Nat) : Orchestrator × OpResult :=
  let o1 := { o with
    is_running := false,
    session := (o.session.update_status SessionStatus.paused now).add_action_log
      pause_log now }
  (o1, OpResult.ok ("paused"))

/-- `stop_exploration`: unconditionally clear is_running, set CANCELLED and
append the stop log. -/
def stop_exploration (o : Orchestrator) (now : Nat) : Orchestrator × OpResult :=
  let o1 := { o with
    is_running := false,
    session := (o.session.update_status SessionStatus.cancelled now).add_action_log
      stop_log now }
  (o1, OpResult.ok ("cancelled"))

/-- A CPython `threading.Lock` is not reentrant: acquiring it while it is
already held (by any thread, the current one included) blocks the caller
forever; `none` models the call that never returns. -/
def lock_acquire (held : Bool) : Option Unit :=
  if held then none else some ()

/-- Result of `resume_exploration`. -/
inductive ResumeResult
  | rejected (msg : String)
  | started (r : StartResult)
deriving DecidableEq

/-- `ExplorationOrchestrator.resume_exploration`, run with the orchestrator
lock held (its own `with self.lock`): reject when the session is not
paused; otherwise set is_running, mark RUNNING, append the resume log, and
delegate to `start_exploration()` — whose own `with self.lock` must first
acquire the very lock this thread is still holding.  `none` is that nested
acquisition blocking forever (a deadlock: the thread never proceeds and
never returns). -/
def resume_exploration (execStep : PlanStep → String → StepOutcome)
    (plan_steps : List PlanStep) (o : Orchestrator) (now : Nat) :
    Option (Orchestrator × ResumeResult) :=
  if o.session.status ≠ SessionStatus.paused then
    some (o, ResumeResult.rejected ("Session is not paused"))
  else
    let o1 := { o with
      is_running := true,
      session := (o.session.update_status SessionStatus.running now).add_action_log
        resume_log now }
    match lock_acquire true with
    | none => none
    | some _ =>
      let (o2, r) := start_exploration execStep plan_steps o1 now
      some (o2, ResumeResult.started r)

/-- GenerationStatus enum from scraper_generation.py. -/
inductive GenerationStatus
  | not_started
  | in_progress
  | completed
  | failed
  | testing
deriving DecidableEq

/-- TestStatus enum from scraper_generation.py. -/
inductive TestStatus
  | not_run
  | running
  | passed
  | failed
  | error
deriving DecidableEq

/-- One entry of `ScraperTestResult.assertion_details`. -/
structure AssertionDetail where
  type : String := ""
  description : String := ""
  passed : Bool := false
  message : String := ""
deriving DecidableEq

/-- A JSON value as produced by `json.loads` on the scraper output. -/
inductive Jval
  | null
  | bool (b : Bool)
  | num (n : Int)
  | str (s : String)
  | arr (xs : List Jval)
  | obj (kvs : List (String × Jval))

/-- ScraperTestResult dataclass (uuid/timestamp bookkeeping omitted). -/
structure ScraperTestResult where
  status : TestStatus := TestStatus.not_run
  execution_time_ms : Option Nat := none
  error_message : Option String := none
  stack_trace : Option String := none
  assertions_passed : Nat := 0
  assertions_failed : Nat := 0
  assertion_details : List AssertionDetail := []
  extracted_data : Jval := Jval.obj []
  console_logs : List String := []

/-- GeneratedScraper dataclass (generation/lifecycle state; the packaging
metadata fields dependencies/readme/prompt are not modelled). -/
structure GeneratedScraper where
  version : Nat := 1
  status : GenerationStatus := GenerationStatus.not_started
  specification : String := ""
  code : String := ""
  test_results : List ScraperTestResult := []
  last_test_status : TestStatus := TestStatus.not_run
  iteration_count : Nat := 0
  max_iterations : Nat := 5
  generation_errors : List String := []

/-- `GeneratedScraper.add_test_result`: append and track the last status. -/
def GeneratedScraper.add_test_result (s : GeneratedScraper)
    (r : ScraperTestResult) : GeneratedScraper :=
  { s with test_results := s.test_results ++ [r], last_test_status := r.status }

/-- `GeneratedScraper.update_status`. -/
def GeneratedScraper.update_status (s : GeneratedScraper)
    (st : GenerationStatus) : GeneratedScraper :=
  { s with status := st }

/-- `ScraperGenerator.generate_scraper_code`: build a fresh version-1
scraper from the specification; the LLM chat call is an external effect
whose outcome is the `llm` argument — on success the extracted code is
stored and the status becomes COMPLETED, on an exception the status
becomes FAILED and the message is recorded in generation_errors. -/
def generate_scraper_code (llm : Except String String) (spec : String) :
    GeneratedScraper :=
  let scraper : GeneratedScraper :=
    { specification := spec, status := GenerationStatus.in_progress }
  match llm with
  | Except.ok generatedCode =>
    { scraper with code := generatedCode, status := GenerationStatus.completed }
  | Except.error e =>
    { scraper with
      status := GenerationStatus.failed,
      generation_errors := scraper.generation_errors ++ [e] }

/-- Error strings `refine_scraper` collects from a test result. -/
def collect_refine_errors (tr : ScraperTestResult) : List String :=
  (match tr.error_message with
   | some m => [m]
   | none => []) ++
  (match tr.stack_trace with
   | some st => ["Stack trace: " ++ st]
   | none => []) ++
  ((tr.assertion_details.filter (fun a => !a.passed)).map
    (fun a => "Assertion failed: " ++ a.description))

/-- `ScraperGenerator.refine_scraper`: refuse (status FAILED) once the
iteration budget of the scraper itself is spent; otherwise record the test
errors, regenerate (a fresh LLM call, outcome `llm`), and carry over the
incremented version, the incremented iteration count and the accumulated
test history onto the regenerated scraper. -/
def refine_scraper (llm : Except String String) (scraper : GeneratedScraper)
    (tr : ScraperTestResult) : GeneratedScraper :=
  if scraper.max_iterations ≤ scraper.iteration_count then
    { scraper with
      generation_errors := scraper.generation_errors ++ ["Maximum iteration limit reached"],
      status := GenerationStatus.failed }
  else
    let errs := collect_refine_errors tr
    let scraper1 := { scraper with generation_errors := scraper.generation_errors ++ errs }
    let refined := generate_scraper_code llm scraper1.specification
    { refined with
      version := scraper1.version + 1,
      iteration_count := scraper1.iteration_count + 1,
      test_results := scraper1.test_results }

/-- The `for iteration in range(max_iterations)` body of
`ApprovalPipeline.generate_and_test_scraper`, recursing over the list of
remaining loop indices (the caller passes `List.range maxIterations`).
`tests i` is the outcome of the subprocess test run at loop index `i`;
`llm i` is the outcome of the i-th LLM call (call 0 was the initial
generation, the refinement at loop index i uses call i+1).  A break leaves
the loop by returning the scraper at hand. -/
def pipeline_loop (llm : Nat → Except String String)
    (tests : Nat → ScraperTestResult) (maxIterations : Nat) :
    List Nat → GeneratedScraper → GeneratedScraper
  | [], scraper => scraper
  | iteration :: rest, scraper =>
    let tr := tests iteration
    let scraper1 := scraper.add_test_result tr
    if tr.status = TestStatus.passed then
      scraper1.update_status GenerationStatus.completed
    else if iteration < maxIterations - 1 then
      let scraper2 := refine_scraper (llm (iteration + 1)) scraper1 tr
      if scraper2.status = GenerationStatus.failed then scraper2
      else pipeline_loop llm tests maxIterations rest scraper2
    else
      scraper1.update_status GenerationStatus.failed

/-- `ApprovalPipeline.generate_and_test_scraper`: generate the initial
scraper from the session specification, return it unchanged if generation
already failed, else run the bounded test-and-refine loop. -/
def generate_and_test_scraper (llm : Nat → Except String String)
    (tests : Nat → ScraperTestResult) (spec : String)
    (maxIterations : Nat) : GeneratedScraper :=
  let scraper := generate_scraper_code (llm 0) spec
  if scraper.status = GenerationStatus.failed then scraper
  else pipeline_loop llm tests maxIterations (List.range maxIterations) scraper

/-- Python truthiness of a JSON value (`bool(x)`): empty containers, empty
strings, zero and None are falsy. -/
def Jval.truthy : Jval → Bool
  | Jval.null => false
  | Jval.bool b => b
  | Jval.num n => n ≠ 0
  | Jval.str s => !s.isEmpty
  | Jval.arr xs => !xs.isEmpty
  | Jval.obj kvs => !kvs.isEmpty

/-- Equality of a JSON value with a Python string (used by the list case of
the membership test: only string elements can equal a string). -/
def Jval.eqStr : Jval → String → Bool
  | Jval.str s, t => s = t
  | _, _ => false

/-- Substring test on the character lists of two strings. -/
def str_contains_sub (hay needle : String) : Bool :=
  decide (needle.data <:+: hay.data)

/-- Python membership `field in data`: key lookup on a dict, element
equality on a list, substring on a string; a TypeError on any other value
(numbers, booleans, None are not iterable). -/
def pyContains (field : String) : Jval → Except String Bool
  | Jval.obj kvs => Except.ok (kvs.any (fun kv => kv.1 = field))
  | Jval.arr xs => Except.ok (xs.any (fun x => x.eqStr field))
  | Jval.str s => Except.ok (str_contains_sub s field)
  | _ => Except.error ("TypeError: argument is not iterable")

/-- Python `data.get(field)`: key lookup returning None for a missing key
on a dict; an AttributeError on any non-dict value. -/
def pyGet (v : Jval) (field : String) : Except String (Option Jval) :=
  match v with
  | Jval.obj kvs => Except.ok ((kvs.find? (fun kv => kv.1 = field)).map (fun kv => kv.2))
  | _ => Except.error ("AttributeError: object has no attribute get")

/-- Python `isinstance` against the type_map of the field_type assertion.
None (a missing field) matches nothing; a Python bool is an instance of
int, so booleans also match the number type. -/
def isinstance_of (v : Option Jval) (expected : String) : Bool :=
  match v, expected with
  | some (Jval.str _), "string" => true
  | some (Jval.num _), "number" => true
  | some (Jval.bool _), "number" => true
  | some (Jval.arr _), "list" => true
  | some (Jval.obj _), "dict" => true
  | some (Jval.bool _), "boolean" => true
  | _, _ => false

/-- Whether the expected_type string is a key of the type_map. -/
def known_type_name (expected : String) : Bool :=
  expected = "string" ∨ expected = "number" ∨ expected = "list" ∨
    expected = "dict" ∨ expected = "boolean"

/-- One assertion dictionary from the caller-supplied assertion list.  The
`custom` kind evaluates an arbitrary sandboxed expression with `eval`;
that evaluation is an external effect whose outcome (a value, or a raised
exception message) is carried in the `custom_eval` field. -/
structure TesterAssertion where
  type : String := ""
  description : String := ""
  field : String := ""
  min_count : Nat := 1
  expected_type : String := ""
  custom_eval : Except String Jval := Except.error ("SyntaxError")

/-- One iteration of the loop in `ScraperTester._run_assertions`: build the
assertion_detail record (passed=False unless a branch sets it) with the
branch-by-branch logic of the source; exceptions raised inside a branch are
caught by the per-assertion handler and leave passed at False. -/
def run_one_assertion (data : Jval) (a : TesterAssertion) : AssertionDetail :=
  let base : AssertionDetail := { type := a.type, description := a.description }
  if a.type = "not_empty" then
    let p := data.truthy
    { base with passed := p, message := if p then "Data is not empty" else "Data is empty" }
  else if a.type = "has_field" then
    match pyContains a.field data with
    | Except.ok p =>
      { base with
        passed := p,
        message := if p then "Field exists" else "Field not found" }
    | Except.error e => { base with message := "Error: " ++ e }
  else if a.type = "field_not_empty" then
    match pyGet data a.field with
    | Except.ok v =>
      let p := (v.getD Jval.null).truthy
      { base with
        passed := p,
        message := if p then "Field is not empty" else "Field is empty" }
    | Except.error e => { base with message := "Error: " ++ e }
  else if a.type = "min_items" then
    match pyGet data a.field with
    | Except.ok v =>
      match v.getD (Jval.arr []) with
      | Jval.arr xs =>
        let p := a.min_count ≤ xs.length
        { base with passed := p, message := "Field item count checked" }
      | _ => { base with message := "Field is not a list" }
    | Except.error e => { base with message := "Error: " ++ e }
  else if a.type = "field_type" then
    if known_type_name a.expected_type then
      match pyGet data a.field with
      | Except.ok v =>
        { base with
          passed := isinstance_of v a.expected_type,
          message := "Field type checked" }
      | Except.error e => { base with message := "Error: " ++ e }
    else
      { base with message := "Unknown type: " ++ a.expected_type }
  else if a.type = "custom" then
    match a.custom_eval with
    | Except.ok v => { base with passed := v.truthy, message := "Custom assertion" }
    | Except.error e => { base with message := "Failed to evaluate custom assertion: " ++ e }
  else
    { base with message := "Unknown assertion type: " ++ a.type }

/-- `ScraperTester._run_assertions`: fold the assertion list into the
result, appending each detail and bumping the passed/failed counters. -/
def run_assertions (r : ScraperTestResult) (assertions : List TesterAssertion) :
    ScraperTestResult :=
  assertions.foldl
    (fun acc a =>
      let d := run_one_assertion acc.extracted_data a
      { acc with
        assertion_details := acc.assertion_details ++ [d],
        assertions_passed := acc.assertions_passed + (if d.passed then 1 else 0),
        assertions_failed := acc.assertions_failed + (if d.passed then 0 else 1) })
    r

/-- The run-assertions-and-determine-overall-status block of
`ScraperTester.test_scraper` (executed only on a clean exit): run the
assertions when a non-empty list was supplied, then classify — any
error_message means ERROR, otherwise a failed assertion means FAILED and a
clean sheet means PASSED. -/
def classify_result (r : ScraperTestResult)
    (assertions : List TesterAssertion) : ScraperTestResult :=
  let r1 := if assertions.isEmpty then r else run_assertions r assertions
  if r1.error_message.isSome then { r1 with status := TestStatus.error }
  else if 0 < r1.assertions_failed then { r1 with status := TestStatus.failed }
  else { r1 with status := TestStatus.passed }

/-- Outcome of running the materialized scraper subprocess (an external
effect): the spawn itself may raise, the wait may time out, or the process
completes with an exit code, stdout (None when empty; otherwise the raw
text together with the `json.loads` outcome on it) and optional stderr
text. -/
inductive RunOutcome
  | spawn_error (msg : String)
  | timeout_expired (limit : Nat)
  | completed (exitCode : Int) (elapsedMs : Nat)
      (stdout : Option (String × Except String Jval)) (stderrText : Option String)

/-- `ScraperTester.test_scraper`: materialize and run the scraper, parse
its stdout as JSON, run the assertions on a clean exit, and classify the
result — timeout, spawn failure, non-zero exit and JSON parse failure are
ERROR; a clean run with a failed assertion is FAILED; a clean run with no
error and no failed assertion is PASSED. -/
def test_scraper (run : RunOutcome) (assertions : List TesterAssertion) :
    ScraperTestResult :=
  let base : ScraperTestResult := { status := TestStatus.running }
  match run with
  | RunOutcome.spawn_error msg =>
    { base with error_message := some msg, status := TestStatus.error }
  | RunOutcome.timeout_expired limit =>
    { base with
      error_message := some ("Scraper execution timed out after " ++ toString limit ++ " seconds"),
      status := TestStatus.error }
  | RunOutcome.completed exitCode elapsedMs stdout stderrText =>
    let r := { base with
      execution_time_ms := some elapsedMs,
      console_logs := match stderrText with
        | some t => t.splitOn "\n"
        | none => [] }
    let r := match stdout with
      | none => r
      | some (_, Except.ok v) => { r with extracted_data := v }
      | some (raw, Except.error e) =>
        { r with
          error_message := some ("Failed to parse scraper output as JSON: " ++ e),
          console_logs := r.console_logs ++ ["Raw output: " ++ (raw.take 1000)] }
    if exitCode ≠ 0 then
      { r with
        error_message := some ("Scraper exited with code " ++ toString exitCode),
        stack_trace := stderrText,
        status := TestStatus.error }
    else
      classify_result r assertions

/-- The default assertion list of `ScraperTester.get_default_assertions`. -/
def get_default_assertions : List TesterAssertion :=
  [ { type := "not_empty", description := "Extracted data should not be empty" },
    { type := "has_field", field := "url", description := "Data should include the source URL" } ]

@[simp] lemma update_status_action_logs (s : ExplorationSession)
    (st : SessionStatus) (now : Nat) :
    (s.update_status st now).action_logs = s.action_logs := by
  unfold ExplorationSession.update_status
  dsimp only
  split
  · rfl
  · split <;> rfl

@[simp] lemma update_status_status (s : ExplorationSession)
    (st : SessionStatus) (now : Nat) :
    (s.update_status st now).status = st := by
  unfold ExplorationSession.update_status
  dsimp only
  split
  · rfl
  · split <;> rfl

@[simp] lemma update_status_max_iterations (s : ExplorationSession)
    (st : SessionStatus) (now : Nat) :
    (s.update_status st now).max_iterations = s.max_iterations := by
  unfold ExplorationSession.update_status
  dsimp only
  split
  · rfl
  · split <;> rfl

@[simp] lemma add_action_log_action_logs (s : ExplorationSession)
    (l : ActionLog) (now : Nat) :
    (s.add_action_log l now).action_logs = s.action_logs ++ [l] := rfl

@[simp] lemma add_action_log_status (s : ExplorationSession)
    (l : ActionLog) (now : Nat) :
    (s.add_action_log l now).status = s.status := rfl

@[simp] lemma add_action_log_max_iterations (s : ExplorationSession)
    (l : ActionLog) (now : Nat) :
    (s.add_action_log l now).max_iterations = s.max_iterations := rfl

@[simp] lemma update_progress_action_logs (s : ExplorationSession)
    (cur total now : Nat) :
    (s.update_progress cur total now).action_logs = s.action_logs := rfl

@[simp] lemma update_progress_status (s : ExplorationSession)
    (cur total now : Nat) :
    (s.update_progress cur total now).status = s.status := rfl

@[simp] lemma update_progress_max_iterations (s : ExplorationSession)
    (cur total now : Nat) :
    (s.update_progress cur total now).max_iterations = s.max_iterations := rfl

/-- C5 counterexample: the claim says completed_at is set exactly once and
never overwritten by a later update_status call, but a second transition
into a terminal status re-stamps it — update_status COMPLETED at time 1
then CANCELLED at time 2 moves completed_at from 1 to 2. -/
theorem C5_counterexample :
    (let s1 := ExplorationSession.update_status {} SessionStatus.completed 1
     let s2 := s1.update_status SessionStatus.cancelled 2
     s1.completed_at = some 1 ∧ s2.completed_at = some 2 ∧
       s2.completed_at ≠ s1.completed_at) := by
  decide

/-- C5 amended: started_at is set exactly once, on the first entry to
RUNNING, and never overwritten afterwards; completed_at, by contrast, is
re-assigned by every update_status call whose target status is terminal
(COMPLETED, FAILED or CANCELLED) — so a later terminal transition
overwrites it — and is left unchanged by non-terminal updates. -/
theorem C5_amended (s : ExplorationSession) (st : SessionStatus) (now : Nat) :
    ((s.update_status st now).started_at =
      if st = SessionStatus.running ∧ s.started_at = none then some now
      else s.started_at) ∧
    ((s.update_status st now).completed_at =
      if st.isTerminal then some now else s.completed_at) := by
  unfold ExplorationSession.update_status
  cases st <;> cases h : s.started_at <;>
    simp [SessionStatus.isTerminal, h]

/-- C6: check_approval_sequencing for scraper generation is ineligible with
a reason when the session has no exploration_summary gate, eligible exactly
when that gate has status approved (so a later rejection makes subsequent
calls ineligible again), and is a pure function of the session gate list,
re-evaluated on every call with no state mutation. -/
theorem C6_check_sequencing (s : ExplorationSession) :
    (approval_map_get s.approval_gates ("exploration_summary") = none →
      check_approval_sequencing s ApprovalType.scraper_generation =
        (false, "Exploration summary must be created first")) ∧
    (∀ g, approval_map_get s.approval_gates ("exploration_summary") = some g →
      ((check_approval_sequencing s ApprovalType.scraper_generation).1 = true ↔
        g.status = "approved")) ∧
    (∀ s' : ExplorationSession, s'.approval_gates = s.approval_gates →
      check_approval_sequencing s' ApprovalType.scraper_generation =
        check_approval_sequencing s ApprovalType.scraper_generation) := by
  refine ⟨?_, ?_, ?_⟩
  · intro h
    unfold check_approval_sequencing
    rw [h]
  · intro g h
    unfold check_approval_sequencing
    rw [h]
    by_cases hg : g.status = "approved"
    · simp [hg]
    · simp [hg]
  · intro s' h
    unfold check_approval_sequencing
    rw [h]

/-- C6 witness: with a single approved exploration_summary gate the check
is eligible; with no gates it is ineligible with the creation reason. -/
theorem C6_witness :
    (check_approval_sequencing
      { approval_gates := [ { approval_type := "exploration_summary", status := "approved" } ] }
      ApprovalType.scraper_generation).1 = true ∧
    check_approval_sequencing { approval_gates := [] }
      ApprovalType.scraper_generation =
        (false, "Exploration summary must be created first") :=
  ⟨((C6_check_sequencing _).2.1 _ (by rfl)).mpr rfl,
   (C6_check_sequencing _).1 (by rfl)⟩

/-- C8: calling start_exploration while the orchestrator is already running
returns the already-running error and leaves the whole orchestrator state —
current_loop, completed_steps and the session action logs included —
unchanged. -/
theorem C8_start_while_running (execStep : PlanStep → String → StepOutcome)
    (plan : List PlanStep) (o : Orchestrator) (now : Nat)
    (h : o.is_running = true) :
    start_exploration execStep plan o now =
      (o, StartResult.errorAlready ("Exploration already running")) ∧
    (start_exploration execStep plan o now).1.current_loop = o.current_loop ∧
    (start_exploration execStep plan o now).1.completed_steps = o.completed_steps ∧
    (start_exploration execStep plan o now).1.session.action_logs =
      o.session.action_logs := by
  unfold start_exploration
  rw [h]
  simp

/-- C8 witness: a concrete already-running orchestrator is rejected without
any state change. -/
theorem C8_start_while_running_witness :
    start_exploration (fun _ _ => StepOutcome.ok []) []
      { is_running := true } 0 =
      ({ is_running := true }, StartResult.errorAlready ("Exploration already running")) :=
  (C8_start_while_running (fun _ _ => StepOutcome.ok []) [] { is_running := true } 0 rfl).1

/-- C3: the claim says resume_exploration on a paused session terminates
and the nested start_exploration acquires the orchestrator mutex; in fact
the nested call blocks forever on the non-reentrant lock the resume call
is still holding, so resume_exploration never returns (modelled as none). -/
theorem C3_resume_deadlock (execStep : PlanStep → String → StepOutcome)
    (plan : List PlanStep) (o : Orchestrator) (now : Nat)
    (h : o.session.status = SessionStatus.paused) :
    resume_exploration execStep plan o now = none := by
  unfold resume_exploration
  rw [if_neg]
  · rfl
  · simp [h]

/-- C3 witness: the deadlock at a concrete paused orchestrator. -/
theorem C3_resume_deadlock_witness :
    resume_exploration (fun _ _ => StepOutcome.ok []) []
      { session := { status := SessionStatus.paused } } 0 = none :=
  C3_resume_deadlock (fun _ _ => StepOutcome.ok []) []
    { session := { status := SessionStatus.paused } } 0 rfl

/-- C10: pause_exploration has no status precondition — from any session
status (created, completed, failed or cancelled included) it sets the
status to paused, appends the pause log and reports success, after which
resume_exploration accepts the session: resume does not return its
not-paused rejection but proceeds past the status guard (where it then
blocks on the nested lock acquisition, modelled as none — an accepted
resume, not a rejected one). -/
theorem C10_pause_unconditional (o : Orchestrator) (now now2 : Nat)
    (execStep : PlanStep → String → StepOutcome) (plan : List PlanStep) :
    ((pause_exploration o now).1.session.status = SessionStatus.paused) ∧
    ((pause_exploration o now).2 = OpResult.ok ("paused")) ∧
    ((pause_exploration o now).1.session.action_logs =
      o.session.action_logs ++ [pause_log]) ∧
    (resume_exploration execStep plan (pause_exploration o now).1 now2 = none) := by
  refine ⟨by simp [pause_exploration], rfl, by simp [pause_exploration], ?_⟩
  unfold resume_exploration
  rw [if_neg]
  · rfl
  · simp [pause_exploration]

@[simp] lemma add_test_result_iteration_count (s : GeneratedScraper)
    (r : ScraperTestResult) :
    (s.add_test_result r).iteration_count = s.iteration_count := rfl

@[simp] lemma add_test_result_status (s : GeneratedScraper)
    (r : ScraperTestResult) :
    (s.add_test_result r).status = s.status := rfl

@[simp] lemma gen_update_status_status (s : GeneratedScraper)
    (st : GenerationStatus) :
    (s.update_status st).status = st := rfl

@[simp] lemma gen_update_status_iteration_count (s : GeneratedScraper)
    (st : GenerationStatus) :
    (s.update_status st).iteration_count = s.iteration_count := rfl

@[simp] lemma generate_scraper_code_iteration_count
    (llm : Except String String) (spec : String) :
    (generate_scraper_code llm spec).iteration_count = 0 := by
  unfold generate_scraper_code
  cases llm <;> rfl

lemma refine_scraper_count_le (llm : Except String String)
    (scr : GeneratedScraper) (tr : ScraperTestResult) :
    (refine_scraper llm scr tr).iteration_count ≤ scr.iteration_count + 1 := by
  unfold refine_scraper
  split
  · simp
  · simp

lemma pipeline_loop_count_bound (llm : Nat → Except String String)
    (tests : Nat → ScraperTestResult) (m : Nat) :
    ∀ (k it : Nat) (scr : GeneratedScraper),
      (pipeline_loop llm tests m (List.range' it k) scr).iteration_count ≤
        scr.iteration_count + k := by
  intro k
  induction k with
  | zero => intro it scr; simp [pipeline_loop, List.range']
  | succ k ih =>
    intro it scr
    rw [List.range']
    unfold pipeline_loop
    dsimp only
    by_cases hp : (tests it).status = TestStatus.passed
    · rw [if_pos hp]
      have hh : ((scr.add_test_result (tests it)).update_status
          GenerationStatus.completed).iteration_count = scr.iteration_count := by simp
      omega
    · rw [if_neg hp]
      by_cases hlt : it < m - 1
      · rw [if_pos hlt]
        have h2 := refine_scraper_count_le (llm (it + 1))
          (scr.add_test_result (tests it)) (tests it)
        simp only [add_test_result_iteration_count] at h2
        by_cases hf : (refine_scraper (llm (it + 1))
            (scr.add_test_result (tests it)) (tests it)).status = GenerationStatus.failed
        · rw [if_pos hf]
          omega
        · rw [if_neg hf]
          have h1 := ih (it + 1)
            (refine_scraper (llm (it + 1)) (scr.add_test_result (tests it)) (tests it))
          omega
      · rw [if_neg hlt]
        have hh : ((scr.add_test_result (tests it)).update_status
            GenerationStatus.failed).iteration_count = scr.iteration_count := by simp
        omega

lemma pipeline_loop_all_fail (llm : Nat → Except String String)
    (tests : Nat → ScraperTestResult) (m : Nat) :
    ∀ (k it : Nat) (scr : GeneratedScraper), it + k = m → 1 ≤ k →
      (∀ i, it ≤ i → i < m → (tests i).status ≠ TestStatus.passed) →
      (pipeline_loop llm tests m (List.range' it k) scr).status =
        GenerationStatus.failed := by
  intro k
  induction k with
  | zero => intro it scr _ h2 _; omega
  | succ k ih =>
    intro it scr hsum _ hfail
    rw [List.range']
    unfold pipeline_loop
    dsimp only
    rw [if_neg (hfail it (le_refl it) (by omega))]
    by_cases hlt : it < m - 1
    · rw [if_pos hlt]
      by_cases hf : (refine_scraper (llm (it + 1))
          (scr.add_test_result (tests it)) (tests it)).status = GenerationStatus.failed
      · rw [if_pos hf]
        exact hf
      · rw [if_neg hf]
        exact ih (it + 1) _ (by omega) (by omega) (fun i h1 h2 => hfail i (by omega) h2)
    · rw [if_neg hlt]
      simp

/-- C1 counterexample: with max_iterations = 5, generation always
succeeding and every test iteration failing, generate_and_test_scraper
returns a scraper with status failed and five recorded test results as the
claim says, but with iteration_count 4, not 5 — the counter tracks
refinements and the final failing iteration triggers no refinement. -/
theorem C1_counterexample :
    (let scr := generate_and_test_scraper (fun _ => Except.ok ("code"))
        (fun _ => { status := TestStatus.failed }) ("spec") 5
     scr.status = GenerationStatus.failed ∧ scr.test_results.length = 5 ∧
       scr.iteration_count = 4 ∧ scr.iteration_count ≠ 5) := by
  decide

/-- C1 amended: generate_and_test_scraper with max_iterations = 5 and every
test iteration failing returns a scraper with status failed, a test_results
list of length 5, and iteration_count 4 = max_iterations - 1 (the counter
counts refinements, and the final failing iteration is not followed by a
refinement); in general the returned iteration_count never exceeds
max_iterations, and reaching the bound without a passed test forces status
failed. -/
theorem C1_amended :
    (∀ (llm : Nat → Except String String) (tests : Nat → ScraperTestResult)
       (spec : String) (m : Nat),
       (generate_and_test_scraper llm tests spec m).iteration_count ≤ m) ∧
    (∀ (llm : Nat → Except String String) (tests : Nat → ScraperTestResult)
       (spec : String) (m : Nat), 1 ≤ m →
       (∀ i, i < m → (tests i).status ≠ TestStatus.passed) →
       (generate_and_test_scraper llm tests spec m).status =
         GenerationStatus.failed) ∧
    (let scr := generate_and_test_scraper (fun _ => Except.ok ("code"))
        (fun _ => { status := TestStatus.failed }) ("spec") 5
     scr.status = GenerationStatus.failed ∧ scr.test_results.length = 5 ∧
       scr.iteration_count = 4) := by
  refine ⟨?_, ?_, by decide⟩
  · intro llm tests spec m
    unfold generate_and_test_scraper
    dsimp only
    by_cases hg : (generate_scraper_code (llm 0) spec).status = GenerationStatus.failed
    · rw [if_pos hg]
      simp
    · rw [if_neg hg]
      rw [List.range_eq_range']
      have := pipeline_loop_count_bound llm tests m m 0
        (generate_scraper_code (llm 0) spec)
      simp only [generate_scraper_code_iteration_count] at this
      omega
  · intro llm tests spec m hm hfail
    unfold generate_and_test_scraper
    dsimp only
    by_cases hg : (generate_scraper_code (llm 0) spec).status = GenerationStatus.failed
    · rw [if_pos hg]
      exact hg
    · rw [if_neg hg]
      rw [List.range_eq_range']
      exact pipeline_loop_all_fail llm tests m m 0 _ (by omega) hm
        (fun i _ h2 => hfail i h2)

/-- C1 witness: the amended bound and exhaustion outcome instantiated at
the concrete all-failing five-iteration run. -/
theorem C1_amended_witness :
    (generate_and_test_scraper (fun _ => Except.ok ("code"))
        (fun _ => { status := TestStatus.failed }) ("spec") 5).iteration_count ≤ 5 ∧
    (generate_and_test_scraper (fun _ => Except.ok ("code"))
        (fun _ => { status := TestStatus.failed }) ("spec") 5).status =
      GenerationStatus.failed :=
  ⟨C1_amended.1 _ _ _ 5,
   C1_amended.2.1 _ _ _ 5 (by omega) (fun i _ => by decide)⟩

lemma run_assertions_error_message (assertions : List TesterAssertion) :
    ∀ r : ScraperTestResult,
      (run_assertions r assertions).error_message = r.error_message := by
  induction assertions with
  | nil => intro r; rfl
  | cons a rest ih =>
    intro r
    unfold run_assertions at ih ⊢
    rw [List.foldl_cons]
    exact (ih _).trans rfl

lemma classify_result_of_some (r : ScraperTestResult)
    (assertions : List TesterAssertion) (h : r.error_message.isSome = true) :
    (classify_result r assertions).status = TestStatus.error := by
  unfold classify_result
  dsimp only
  have hmsg : (if assertions.isEmpty then r else run_assertions r assertions).error_message
      = r.error_message := by
    by_cases he : assertions.isEmpty
    · rw [if_pos he]
    · rw [if_neg he]
      exact run_assertions_error_message assertions r
  rw [if_pos (by rw [hmsg]; exact h)]

lemma classify_result_of_none (r : ScraperTestResult)
    (assertions : List TesterAssertion) (h : r.error_message = none) :
    ((classify_result r assertions).status = TestStatus.passed ↔
      (classify_result r assertions).assertions_failed = 0) ∧
    ((classify_result r assertions).status = TestStatus.failed ↔
      0 < (classify_result r assertions).assertions_failed) := by
  unfold classify_result
  dsimp only
  have hmsg : (if assertions.isEmpty then r else run_assertions r assertions).error_message
      = r.error_message := by
    by_cases he : assertions.isEmpty
    · rw [if_pos he]
    · rw [if_neg he]
      exact run_assertions_error_message assertions r
  rw [if_neg (by rw [hmsg, h]; simp)]
  by_cases hf :
      0 < (if assertions.isEmpty then r else run_assertions r assertions).assertions_failed
  · rw [if_pos hf]
    dsimp only
    constructor
    · constructor
      · intro hcontra
        exact absurd hcontra (by decide)
      · intro h0
        omega
    · constructor
      · intro _
        exact hf
      · intro _
        rfl
  · rw [if_neg hf]
    dsimp only
    constructor
    · constructor
      · intro _
        omega
      · intro _
        rfl
    · constructor
      · intro hcontra
        exact absurd hcontra (by decide)
      · intro h0
        exact absurd h0 hf

lemma test_scraper_nonzero_exit (exitCode : Int) (ms : Nat)
    (stdout : Option (String × Except String Jval)) (stderrText : Option String)
    (assertions : List TesterAssertion) (h : exitCode ≠ 0) :
    (test_scraper (RunOutcome.completed exitCode ms stdout stderrText)
      assertions).status = TestStatus.error := by
  rcases stdout with _ | ⟨raw, pr⟩
  · unfold test_scraper
    dsimp only
    rw [if_pos h]
  · rcases pr with e | v
    · unfold test_scraper
      dsimp only
      rw [if_pos h]
    · unfold test_scraper
      dsimp only
      rw [if_pos h]

lemma test_scraper_parse_failure (exitCode : Int) (ms : Nat) (raw e : String)
    (stderrText : Option String) (assertions : List TesterAssertion) :
    (test_scraper (RunOutcome.completed exitCode ms
        (some (raw, Except.error e)) stderrText) assertions).status =
      TestStatus.error := by
  by_cases hz : exitCode = 0
  · subst hz
    unfold test_scraper
    dsimp only
    rw [if_neg (by simp)]
    exact classify_result_of_some _ _ rfl
  · exact test_scraper_nonzero_exit exitCode ms _ stderrText assertions hz

lemma test_scraper_clean_exit (ms : Nat)
    (stdout : Option (String × Except String Jval)) (stderrText : Option String)
    (assertions : List TesterAssertion)
    (hok : ∀ raw e, stdout ≠ some (raw, Except.error e)) :
    ((test_scraper (RunOutcome.completed 0 ms stdout stderrText)
        assertions).status = TestStatus.passed ↔
      (test_scraper (RunOutcome.completed 0 ms stdout stderrText)
        assertions).assertions_failed = 0) ∧
    ((test_scraper (RunOutcome.completed 0 ms stdout stderrText)
        assertions).status = TestStatus.failed ↔
      0 < (test_scraper (RunOutcome.completed 0 ms stdout stderrText)
        assertions).assertions_failed) := by
  rcases stdout with _ | ⟨raw, pr⟩
  · unfold test_scraper
    dsimp only
    rw [if_neg (by simp)]
    exact classify_result_of_none _ _ rfl
  · rcases pr with e | v
    · exact absurd rfl (hok raw e)
    · unfold test_scraper
      dsimp only
      rw [if_neg (by simp)]
      exact classify_result_of_none _ _ rfl

/-- C7: test_scraper yields PASSED only on a clean exit (code 0), with no
JSON parse failure on stdout and no failed assertion; a failed assertion
together with a clean exit and successful (or absent) parse yields FAILED,
while a JSON parse failure, a non-zero exit code, a timeout or a spawn
failure yields ERROR — FAILED and ERROR being distinct statuses. -/
theorem C7_test_status_classification :
    (∀ (exitCode : Int) (ms : Nat) (stdout : Option (String × Except String Jval))
       (stderrText : Option String) (assertions : List TesterAssertion),
       (test_scraper (RunOutcome.completed exitCode ms stdout stderrText)
         assertions).status = TestStatus.passed →
       exitCode = 0 ∧ (∀ raw e, stdout ≠ some (raw, Except.error e)) ∧
         (test_scraper (RunOutcome.completed exitCode ms stdout stderrText)
           assertions).assertions_failed = 0) ∧
    (∀ (ms : Nat) (stdout : Option (String × Except String Jval))
       (stderrText : Option String) (assertions : List TesterAssertion),
       (∀ raw e, stdout ≠ some (raw, Except.error e)) →
       0 < (test_scraper (RunOutcome.completed 0 ms stdout stderrText)
         assertions).assertions_failed →
       (test_scraper (RunOutcome.completed 0 ms stdout stderrText)
         assertions).status = TestStatus.failed) ∧
    (∀ (exitCode : Int) (ms : Nat) (raw e : String) (stderrText : Option String)
       (assertions : List TesterAssertion),
       (test_scraper (RunOutcome.completed exitCode ms
           (some (raw, Except.error e)) stderrText) assertions).status =
         TestStatus.error) ∧
    (∀ (exitCode : Int) (ms : Nat) (stdout : Option (String × Except String Jval))
       (stderrText : Option String) (assertions : List TesterAssertion),
       exitCode ≠ 0 →
       (test_scraper (RunOutcome.completed exitCode ms stdout stderrText)
         assertions).status = TestStatus.error) ∧
    (∀ (limit : Nat) (assertions : List TesterAssertion),
       (test_scraper (RunOutcome.timeout_expired limit) assertions).status =
         TestStatus.error) ∧
    (∀ (msg : String) (assertions : List TesterAssertion),
       (test_scraper (RunOutcome.spawn_error msg) assertions).status =
         TestStatus.error) ∧
    TestStatus.failed ≠ TestStatus.error := by
  refine ⟨?_, ?_, ?_, ?_, ?_, ?_, by decide⟩
  · intro exitCode ms stdout stderrText assertions h
    by_cases hz : exitCode = 0
    · subst hz
      have hok : ∀ raw e, stdout ≠ some (raw, Except.error e) := by
        intro raw e heq
        subst heq
        have := test_scraper_parse_failure 0 ms raw e stderrText assertions
        rw [this] at h
        exact absurd h (by decide)
      refine ⟨rfl, hok, ?_⟩
      exact ((test_scraper_clean_exit ms stdout stderrText assertions hok).1).mp h
    · have := test_scraper_nonzero_exit exitCode ms stdout stderrText assertions hz
      rw [this] at h
      exact absurd h (by decide)
  · intro ms stdout stderrText assertions hok hfail
    exact ((test_scraper_clean_exit ms stdout stderrText assertions hok).2).mpr hfail
  · intro exitCode ms raw e stderrText assertions
    exact test_scraper_parse_failure exitCode ms raw e stderrText assertions
  · intro exitCode ms stdout stderrText assertions h
    exact test_scraper_nonzero_exit exitCode ms stdout stderrText assertions h
  · intro limit assertions
    rfl
  · intro msg assertions
    rfl

/-- C7 witness: the classification applied at concrete runs — a passing
run with a url field has no failed assertion, and a timed-out run is an
ERROR. -/
theorem C7_witness :
    (test_scraper (RunOutcome.completed 0 10
        (some (("out"), Except.ok (Jval.obj [("url", Jval.str ("u"))]))) none)
      get_default_assertions).assertions_failed = 0 ∧
    (test_scraper (RunOutcome.timeout_expired 60)
      get_default_assertions).status = TestStatus.error :=
  ⟨(C7_test_status_classification.1 0 10 _ none get_default_assertions
      (by decide)).2.2,
   C7_test_status_classification.2.2.2.2.1 60 get_default_assertions⟩

lemma find_filter_props (p q : PlanStep → Bool) (l : List PlanStep)
    (st : PlanStep) (h : (l.filter q).find? p = some st) :
    st ∈ l ∧ q st = true ∧ p st = true := by
  have hmem := List.mem_of_find?_eq_some h
  have hp := List.find?_some h
  rw [List.mem_filter] at hmem
  exact ⟨hmem.1, hmem.2, hp⟩

lemma find_filter_min (p q : PlanStep → Bool) :
    ∀ l : List PlanStep,
      List.Pairwise (fun a b => a.step_id < b.step_id) l →
      ∀ st, (l.filter q).find? p = some st →
      ∀ x ∈ l, q x = true → p x = true → st.step_id ≤ x.step_id := by
  intro l
  induction l with
  | nil => intro _ st h; simp at h
  | cons a rest ih =>
    intro hpw st hfind x hx hqx hpx
    rw [List.pairwise_cons] at hpw
    rw [List.filter_cons] at hfind
    by_cases hqa : q a = true
    · rw [if_pos hqa] at hfind
      by_cases hpa : p a = true
      · rw [List.find?_cons_of_pos _ hpa] at hfind
        have hst : st = a := by
          injection hfind with h1
          exact h1.symm
        subst hst
        rcases List.mem_cons.mp hx with hxa | hxr
        · subst hxa
          exact le_refl _
        · exact le_of_lt (hpw.1 x hxr)
      · rw [List.find?_cons_of_neg _ (by simpa using hpa)] at hfind
        rcases List.mem_cons.mp hx with hxa | hxr
        · subst hxa
          exact absurd hpx hpa
        · exact ih hpw.2 st hfind x hxr hqx hpx
    · rw [if_neg hqa] at hfind
      rcases List.mem_cons.mp hx with hxa | hxr
      · subst hxa
        exact absurd hqx hqa
      · exact ih hpw.2 st hfind x hxr hqx hpx

/-- C9: step selection is deterministic and order-stable — for a plan whose
step list carries strictly increasing step ids (as the planner produces),
select_next_action is a pure function of plan and completed set; when it
returns a step, that step is pending (not completed), eligible (its
dependency set is contained in the completed set), dispatched to the fixed
kind-to-agent map, and first in step-id order among all pending eligible
steps; and when pending steps remain but none is eligible it returns no
step, reporting waiting. -/
theorem C9_select_next_action_first (steps : List PlanStep)
    (completed_steps : List Nat)
    (hsorted : List.Pairwise (fun a b => a.step_id < b.step_id) steps) :
    (∀ (steps2 : List PlanStep) (completed2 : List Nat),
       steps2 = steps → completed2 = completed_steps →
       select_next_action steps2 completed2 =
         select_next_action steps completed_steps) ∧
    (∀ st ag, select_next_action steps completed_steps =
        NextAction.execute st ag →
       st ∈ steps ∧ completed_steps.contains st.step_id = false ∧
       step_eligible completed_steps st = true ∧
       ag = determine_agent_for_step st ∧
       (∀ x ∈ steps, completed_steps.contains x.step_id = false →
          step_eligible completed_steps x = true → st.step_id ≤ x.step_id)) ∧
    ((∃ x ∈ steps, completed_steps.contains x.step_id = false) →
     (∀ x ∈ steps, completed_steps.contains x.step_id = false →
        step_eligible completed_steps x = false) →
     select_next_action steps completed_steps = NextAction.waiting) := by
  refine ⟨?_, ?_, ?_⟩
  · intro steps2 completed2 h1 h2
    rw [h1, h2]
  · intro st ag h
    unfold select_next_action at h
    dsimp only at h
    by_cases hemp :
        (steps.filter (fun s => !(completed_steps.contains s.step_id))).isEmpty
    · rw [if_pos hemp] at h
      exact NextAction.noConfusion h
    · rw [if_neg hemp] at h
      cases hfind : (steps.filter
          (fun s => !(completed_steps.contains s.step_id))).find?
          (step_eligible completed_steps) with
      | none =>
        rw [hfind] at h
        exact NextAction.noConfusion h
      | some st0 =>
        rw [hfind] at h
        injection h with h1 h2
        subst h1
        subst h2
        have hprops := find_filter_props _ _ _ _ hfind
        refine ⟨hprops.1, by simpa using hprops.2.1, hprops.2.2, rfl, ?_⟩
        intro x hx hxc hxe
        exact find_filter_min _ _ steps hsorted st0 hfind x hx
          (by simpa using hxc) hxe
  · rintro ⟨x, hx, hxc⟩ hall
    unfold select_next_action
    dsimp only
    have hxf : x ∈ steps.filter (fun s => !(completed_steps.contains s.step_id)) :=
      List.mem_filter.mpr ⟨hx, by simpa using hxc⟩
    rw [if_neg (by intro hemp
                   rw [List.isEmpty_iff] at hemp
                   rw [hemp] at hxf
                   exact absurd hxf (List.not_mem_nil x))]
    rw [List.find?_eq_none.mpr]
    intro a ha
    rw [List.mem_filter] at ha
    rw [hall a ha.1 (by simpa using ha.2)]
    simp

/-- C9 witness: a single pending step whose dependency is unsatisfied
makes the selector report waiting. -/
theorem C9_witness :
    select_next_action
      [ { step_id := 1, type := ("analysis"), dependencies := [2] } ] [] =
      NextAction.waiting :=
  (C9_select_next_action_first
      [ { step_id := 1, type := ("analysis"), dependencies := [2] } ] []
      (by simp)).2.2
    ⟨{ step_id := 1, type := ("analysis"), dependencies := [2] },
      by simp, by decide⟩
    (by intro x hx _
        rw [List.mem_singleton] at hx
        subst hx
        decide)

/-- C4 counterexample: for the plan 1:[], 2:[3], 3:[] the run does not halt
waiting after step 1 — selection skips the ineligible step 2 and executes
the eligible step 3, the loop then finishes all three steps (1, 3, 2), and
the epilogue marks the session completed with current_step 3, not 1; the
coordinator never ends in the waiting state. -/
theorem C4_counterexample :
    (let r := start_exploration (fun _ _ => StepOutcome.ok [])
        [ { step_id := 1, type := ("navigation") },
          { step_id := 2, type := ("analysis"), dependencies := [3] },
          { step_id := 3, type := ("analysis") } ] {} 0
     r.1.completed_steps = [1, 3, 2] ∧
     r.1.session.total_steps = 3 ∧
     r.1.session.current_step = 3 ∧
     r.1.session.status = SessionStatus.completed ∧
     r.1.coordinator_status ≠ "waiting" ∧
     r.2 = StartResult.success) := by
  decide

/-- C4 amended: with step 2 depending on step 3 (and step 3 independent)
the loop completes all three steps in the order 1, 3, 2 and the session
ends completed with total_steps 3 and current_step 3; a waiting halt after
step 1 occurs only when no pending step is eligible (steps 2 and 3
depending on each other), and even then the epilogue marks the session
completed and forces current_step to total_steps 3 rather than leaving it
at 1. -/
theorem C4_amended :
    (let r := start_exploration (fun _ _ => StepOutcome.ok [])
        [ { step_id := 1, type := ("navigation") },
          { step_id := 2, type := ("analysis"), dependencies := [3] },
          { step_id := 3, type := ("analysis") } ] {} 0
     r.1.completed_steps = [1, 3, 2] ∧
     r.1.session.total_steps = 3 ∧
     r.1.session.current_step = 3 ∧
     r.1.session.status = SessionStatus.completed) ∧
    (let r := start_exploration (fun _ _ => StepOutcome.ok [])
        [ { step_id := 1, type := ("navigation") },
          { step_id := 2, type := ("analysis"), dependencies := [3] },
          { step_id := 3, type := ("analysis"), dependencies := [2] } ] {} 0
     r.1.completed_steps = [1] ∧
     r.1.coordinator_status = "waiting" ∧
     r.1.session.total_steps = 3 ∧
     r.1.session.current_step = 3 ∧
     r.1.session.status = SessionStatus.completed) := by
  constructor
  · decide
  · decide

lemma run_exploration_loop_exn (execStep : PlanStep → String → StepOutcome)
    (plan : List PlanStep) (o : Orchestrator) (now : Nat)
    (st : PlanStep) (ag msg : String)
    (hrun : o.is_running = true)
    (hiter : 0 < o.session.max_iterations)
    (hlen : 0 < plan.length)
    (hsel : select_next_action plan o.completed_steps = NextAction.execute st ag)
    (hexn : execStep st ag = StepOutcome.exn msg) :
    run_exploration_loop execStep plan o now =
      Except.error
        ({ o with current_loop := 1, coordinator_status := "ready" }, msg) := by
  unfold run_exploration_loop
  obtain ⟨k, hk⟩ : ∃ k, o.session.max_iterations = k + 1 :=
    ⟨o.session.max_iterations - 1, by omega⟩
  rw [hk]
  unfold run_loop
  rw [if_pos (by simp [loop_guard, hrun, hlen, hiter])]
  dsimp only
  rw [hsel]
  dsimp only [NextAction.coordStatus]
  rw [hexn]

/-- C2 counterexample: an exception raised by the capability executing the
first dispatched step is not caught at the dispatch boundary — the run
aborts with the whole session marked failed, no step completes, the loop
does not continue to step 2, and the only error log entry is the single
session-level failure entry. -/
theorem C2_counterexample :
    (let r := start_exploration (fun _ _ => StepOutcome.exn ("boom"))
        [ { step_id := 1 }, { step_id := 2 } ] {} 0
     r.2 = StartResult.failure ("boom") ∧
     r.1.session.status = SessionStatus.failed ∧
     r.1.completed_steps = [] ∧
     (r.1.session.action_logs.filter
        (fun l => l.action_type = some ActionType.error)).length = 1 ∧
     r.1.session.action_logs.getLast? = some (session_error_log ("boom"))) := by
  decide

/-- C2 amended: an exception that escapes a capability during a dispatched
step is not caught at the dispatch boundary and produces no per-step error
log and no degraded per-step result; it propagates out of the loop to the
session-level handler of start_exploration, which marks the whole session
failed, appends a single session-level error log entry, and returns the
failure — the loop does not continue with the next step (the completed set
is left as it was). -/
theorem C2_amended (execStep : PlanStep → String → StepOutcome)
    (plan : List PlanStep) (o : Orchestrator) (now : Nat)
    (st : PlanStep) (ag msg : String)
    (hrun : o.is_running = false)
    (hiter : 0 < o.session.max_iterations)
    (hlen : 0 < plan.length)
    (hsel : select_next_action plan o.completed_steps = NextAction.execute st ag)
    (hexn : execStep st ag = StepOutcome.exn msg) :
    (start_exploration execStep plan o now).2 = StartResult.failure msg ∧
    (start_exploration execStep plan o now).1.session.status =
      SessionStatus.failed ∧
    (start_exploration execStep plan o now).1.completed_steps =
      o.completed_steps ∧
    (start_exploration execStep plan o now).1.session.action_logs =
      o.session.action_logs ++ [start_log, plan_log, session_error_log msg] := by
  unfold start_exploration
  rw [if_neg (by simp [hrun])]
  dsimp only
  rw [run_exploration_loop_exn execStep plan _ now st ag msg rfl
    (by simpa using hiter) hlen (by exact hsel) hexn]
  refine ⟨rfl, by simp, rfl, by simp⟩

/-- C2 witness: the amended propagation behavior at a concrete two-step
plan whose first step raises. -/
theorem C2_amended_witness :
    (start_exploration (fun _ _ => StepOutcome.exn ("boom"))
      [ { step_id := 1 }, { step_id := 2 } ] {} 0).2 =
        StartResult.failure ("boom") ∧
    (start_exploration (fun _ _ => StepOutcome.exn ("boom"))
      [ { step_id := 1 }, { step_id := 2 } ] {} 0).1.session.status =
        SessionStatus.failed :=
  ⟨(C2_amended (fun _ _ => StepOutcome.exn ("boom"))
      [ { step_id := 1 }, { step_id := 2 } ] {} 0 { step_id := 1 }
      (determine_agent_for_step { step_id := 1 })
      ("boom") rfl (by decide) (by decide) rfl rfl).1,
   (C2_amended (fun _ _ => StepOutcome.exn ("boom"))
      [ { step_id := 1 }, { step_id := 2 } ] {} 0 { step_id := 1 }
      (determine_agent_for_step { step_id := 1 })
      ("boom") rfl (by decide) (by decide) rfl rfl).2.1⟩
